import Mathlib

/-!
The request handlers of oidc-authservice.

A shallow embedding of `handlers.go` (`getBearerToken`, `authenticate`,
`callback`, `logout`, `readiness`, `whitelistMiddleware`), of the route
table that `main` registers in `main.go`, and of the route table that
`WebServer.Start` registers in `web_server.go`.

Conventions of the embedding.

* A handler is a function from the session store and the request to a `Run`:
  the ordered trace of the observable operations the handler performed (writes
  to the response, calls to the OIDC provider and to the stores), whether it
  ended in a Go panic, and the session store it leaves behind.
* The collaborators that live outside the handlers (token verifier, code
  exchange, state store, revocation endpoint, failures of the session store)
  are the fields of `Env`: each field is the answer the collaborator gives.
* Logging and the construction of the TLS context have no effect on the
  response or on the stores and are left out.
* Go strings are embedded as `String`; a Go type assertion `x.(string)` that
  fails is a panic of the handler.
-/

namespace AuthService

/-! ## Data model -/

/-- A decoded claim value: what `encoding/json` puts in an `interface{}`.
Nested objects and arrays are never inspected by the handlers and are kept
as `composite`. -/
inductive ClaimValue where
  | str (s : String)
  | num (n : Int)
  | bool (b : Bool)
  | null
  | composite (tag : Nat)
  deriving DecidableEq, Repr

/-- The claim set `map[string]interface{}` of an ID token. -/
abbrev Claims := List (String × ClaimValue)

/-- The `oauth2.Token` returned by the code exchange. `idToken` is
`Extra("id_token")` when that extra field is a string, and `none` when the
type assertion `.(string)` reports `!ok`. -/
structure OAuth2Token where
  accessToken : String
  refreshToken : String
  idToken : Option String
  deriving DecidableEq, Repr

/-- A verified `oidc.IDToken`; `claims` is the result of `idToken.Claims`. -/
structure IDToken where
  claims : Except String Claims

/-- A value stored in `session.Values`. -/
inductive Value where
  | str (s : String)
  | claims (c : Claims)
  | token (t : OAuth2Token)
  deriving DecidableEq, Repr

/-- The `sessions.Options` of a session. -/
structure Options where
  path : String
  maxAge : Int
  secure : Bool
  httpOnly : Bool
  deriving DecidableEq, Repr

/-- A `sessions.Session`: `id` is empty until the store has issued one. -/
structure Session where
  id : String
  name : String
  isNew : Bool
  options : Options
  values : List (String × Value)
  deriving DecidableEq, Repr

/-- The pending login state that `load` returns. -/
structure State where
  origURL : String
  deriving DecidableEq, Repr

/-- The persistent session store: the saved sessions by session id. -/
structure Store where
  records : List (String × Session)
  deriving DecidableEq, Repr

/-- The part of an `http.Request` that the handlers read. -/
structure Request where
  method : String
  /-- The path `r.URL.Path`. -/
  path : String
  /-- The full URL `r.URL.String()`. -/
  url : String
  /-- The header value `r.Header.Get("Authorization")`. -/
  authorization : String
  /-- The parsed form, read through `r.FormValue`. -/
  form : List (String × String)
  /-- The session id carried by the `authservice_session` cookie, if any. -/
  sessionCookie : Option String
  deriving DecidableEq, Repr

/-- One observable operation of a handler. -/
inductive Event where
  /-- The call `returnStatus(w, code, msg)`. -/
  | returnStatus (code : Nat) (msg : String)
  /-- The call `w.Header().Set(key, value)`. -/
  | setHeader (key value : String)
  /-- The call `http.Redirect(w, r, url, code)`. -/
  | redirect (url : String) (code : Nat)
  /-- The call `verifier.Verify(ctx, rawToken)`. -/
  | verify (rawToken : String)
  /-- The call `s.store.Get(r, name)`. -/
  | storeGet (name : String)
  /-- The call `state.save(s.store)` for a state with this original URL. -/
  | stateSave (origURL : String)
  /-- The call `load(s.store, stateID)`. -/
  | load (stateID : String)
  /-- The call `s.oauth2Config.Exchange(ctx, authCode)`. -/
  | exchange (authCode : String)
  /-- A save of this session to the session store. -/
  | sessionSave (sess : Session)
  /-- The call `revocationEndpoint(s.provider)`. -/
  | revocationEndpoint
  /-- The call `revokeTokens(ctx, endpoint, &token, clientID, clientSecret)`. -/
  | revokeTokens (endpoint : String) (token : OAuth2Token)
  /-- The call `w.WriteHeader(code)`. -/
  | writeHeader (code : Nat)
  deriving DecidableEq, Repr

/-- The execution of a handler on one request. -/
structure Run where
  trace : List Event
  panicked : Bool
  store : Store
  deriving DecidableEq, Repr

/-- An `http.Handler`. -/
abbrev Handler := Store → Request → Run

/-- The call `strings.HasPrefix(s, pfx)`. -/
def hasPrefix (s pfx : String) : Bool :=
  pfx.data.isPrefixOf s.data

/-! ## whitelistMiddleware -/

/-- The loop `for _, prefix := range whitelist` of `whitelistMiddleware`:
`true` when the loop body returns for some entry. -/
def whitelisted : List String → String → Bool
  | [], _ => false
  | pfx :: rest, path => if hasPrefix path pfx then true else whitelisted rest path

/-- The middleware `whitelistMiddleware(whitelist, isReady)(handler)`;
`isReady` is the value of `isReady.IsSet()` when the request is served. -/
def whitelistMiddleware (whitelist : List String) (isReady : Bool)
    (handler : Handler) : Handler :=
  fun st r =>
    if whitelisted whitelist r.path then
      ⟨[Event.returnStatus 200 "OK"], false, st⟩
    else if !isReady then
      ⟨[Event.returnStatus 503 "OIDC Setup is not complete yet."], false, st⟩
    else
      handler st r

/-! ## Configuration and collaborators -/

/-- The `userIDOpts` of `main.go`; `pfx` is its field `prefix`. -/
structure userIDOpts where
  header : String
  tokenHeader : String
  pfx : String
  claim : String
  deriving DecidableEq, Repr

/-- The string and integer fields of `server` (`main.go`) that the handlers
read; `clientID` and `clientSecret` are those of `s.oauth2Config`. The
provider, the store and the CA bundle are behind `Env`. -/
structure server where
  clientID : String
  clientSecret : String
  afterLoginRedirectURL : String
  homepageURL : String
  afterLogoutRedirectURL : String
  authHeader : String
  staticDestination : String
  sessionMaxAgeSeconds : Int
  userIDOpts : userIDOpts
  deriving DecidableEq, Repr

/-- The pair `(state, err)` that `load(s.store, stateID)` returns: the state
pointer may be nil (`none`), the error may be nil (`none`). -/
structure LoadResult where
  state : Option State
  err : Option String
  deriving DecidableEq, Repr

/-- The cause `errors.Cause(err)` of a failed `revokeTokens`: a
`*requestError` carrying the status code of the provider's response, or any
other error. -/
inductive RevokeError where
  | requestError (statusCode : Nat)
  | other (msg : String)
  deriving DecidableEq, Repr

/-- The answers of the collaborators of the handlers while one request is
served. -/
structure Env where
  /-- The result of `verifier.Verify(ctx, rawToken)`. -/
  verify : String → Except String IDToken
  /-- The result of `s.oauth2Config.Exchange(ctx, authCode)`. -/
  exchange : String → Except String OAuth2Token
  /-- The result of `load(s.store, stateID)`. -/
  load : String → LoadResult
  /-- The result of `newState(origURL).save(s.store)`: the id of the state. -/
  stateSave : String → Except String String
  /-- The URL `s.oauth2Config.AuthCodeURL(id, prompt=select_account)`. -/
  authCodeURL : String → String
  /-- The result of `revocationEndpoint(s.provider)`. -/
  revocationEndpoint : Except String String
  /-- The error of `revokeTokens(ctx, endpoint, &token, clientID, clientSecret)`,
  `none` for nil. -/
  revokeTokens : String → OAuth2Token → String → String → Option RevokeError
  /-- The error of `s.store.Get`, `none` when the store answers. -/
  storeGetErr : Option String
  /-- The error of a save to the session store, `none` when it succeeds. -/
  saveErr : Option String
  /-- The id the session store issues to a session saved without one. -/
  freshID : String
  /-- The key normalisation `textproto.CanonicalMIMEHeaderKey` of
  `http.Header.Set`. -/
  canon : String → String

/-! ## The session store -/

/-- The constructor `sessions.NewSession(store, name)`. -/
def NewSession (name : String) : Session :=
  { id := "", name := name, isNew := true,
    options := { path := "", maxAge := 0, secure := false, httpOnly := false },
    values := [] }

/-- The assignment `session.Values[key] = v`. -/
def setValue (values : List (String × Value)) (key : String) (v : Value) :
    List (String × Value) :=
  values.filter (fun kv => kv.1 ≠ key) ++ [(key, v)]

/-- The session saved under an id, if any. -/
def Store.find (st : Store) (id : String) : Option Session :=
  st.records.lookup id

/-- The store without the record of an id. -/
def Store.delete (st : Store) (id : String) : Store :=
  { records := st.records.filter (fun kv => kv.1 ≠ id) }

/-- Modelled from the spec: the `Save` of the session store (the store is an
external library, not under src/). A session with a negative max-age is
deleted; any other session is written under its id, a fresh id being issued
when it has none, so that a later `Get` with that id retrieves it. -/
def Store.save (st : Store) (freshID : String) (sess : Session) : Store :=
  if sess.options.maxAge < 0 then
    st.delete sess.id
  else
    let id := if sess.id = "" then freshID else sess.id
    { records := (id, { sess with id := id }) :: (st.delete id).records }

/-- Modelled from the spec: the `Get` of the session store (the store is an
external library, not under src/). It answers the record saved under the id
of the cookie, or a new empty session when the request has no cookie or the
store has no such record. -/
def Store.get (st : Store) (err : Option String) (r : Request) (name : String) :
    Except String Session :=
  match err with
  | some e => Except.error e
  | none =>
    match r.sessionCookie with
    | none => Except.ok (NewSession name)
    | some id =>
      match st.find id with
      | some sess => Except.ok { sess with id := id, isNew := false }
      | none => Except.ok { NewSession name with id := id }

/-- The store after a save that fails with `err` or succeeds. -/
def saveTo (st : Store) (env : Env) (sess : Session) : Store :=
  match env.saveErr with
  | some _ => st
  | none => st.save env.freshID sess

/-! ## getBearerToken -/

/-- The predicate `unicode.IsSpace`. -/
def isSpace (c : Char) : Bool :=
  let n := c.toNat
  n = 0x09 || n = 0x0A || n = 0x0B || n = 0x0C || n = 0x0D || n = 0x20 ||
  n = 0x85 || n = 0xA0 || n = 0x1680 || (0x2000 ≤ n && n ≤ 0x200A) ||
  n = 0x2028 || n = 0x2029 || n = 0x202F || n = 0x205F || n = 0x3000

/-- The call `strings.TrimSpace(s)`. -/
def trimSpace (s : String) : String :=
  ⟨((s.data.dropWhile isSpace).reverse.dropWhile isSpace).reverse⟩

/-- The call `strings.TrimPrefix(s, pfx)`. -/
def trimPrefix (s pfx : String) : String :=
  if hasPrefix s pfx then ⟨s.data.drop pfx.data.length⟩ else s

/-- The function `getBearerToken` of `handlers.go`. -/
def getBearerToken (value : String) : String :=
  let value := trimSpace value
  if hasPrefix value "Bearer " then
    trimPrefix value "Bearer "
  else
    value

/-! ## authenticate -/

/-- The session cookie name `userSessionCookie`. -/
def userSessionCookie : String := "authservice_session"
/-- The session key `userSessionUserID`. -/
def userSessionUserID : String := "userid"
/-- The session key `userSessionClaims`. -/
def userSessionClaims : String := "claims"
/-- The session key `userSessionIDToken`. -/
def userSessionIDToken : String := "idtoken"
/-- The session key `userSessionOAuth2Tokens`. -/
def userSessionOAuth2Tokens : String := "oauth2tokens"

/-- Steps 3 and 4 of the bearer path of `authenticate` (lines 86-96): set the
identity header when the user id is not empty, set the token header when one
is configured, answer 200. -/
def bearerSuccess (s : server) (userID bearer : String) : List Event :=
  (if userID ≠ "" then
      [Event.setHeader s.userIDOpts.header (s.userIDOpts.pfx ++ userID)]
    else []) ++
  (if s.userIDOpts.tokenHeader ≠ "" then
      [Event.setHeader s.userIDOpts.tokenHeader bearer]
    else []) ++
  [Event.returnStatus 200 "OK"]

/-- The handler `server.authenticate` of `handlers.go`. -/
def authenticate (s : server) (env : Env) : Handler :=
  fun st r =>
    let bearer := getBearerToken r.authorization
    if bearer.length ≠ 0 then
      -- 1. Verify the incoming token
      match env.verify bearer with
      | Except.error _ =>
        ⟨[Event.verify bearer,
          Event.returnStatus 500 "Unable to verify ID token."], false, st⟩
      | Except.ok idToken =>
        -- 2. Decode the token and get the claims
        match idToken.claims with
        | Except.error _ =>
          ⟨[Event.verify bearer,
            Event.returnStatus 500 "Not able to fetch userinfo claims."], false, st⟩
        | Except.ok claims =>
          match claims.lookup s.userIDOpts.claim with
          | some (ClaimValue.str userID) =>
            ⟨Event.verify bearer :: bearerSuccess s userID bearer, false, st⟩
          | some _ => ⟨[Event.verify bearer], true, st⟩
          | none =>
            match claims.lookup "sub" with
            | some (ClaimValue.str userID) =>
              ⟨Event.verify bearer :: bearerSuccess s userID bearer, false, st⟩
            | some _ => ⟨[Event.verify bearer], true, st⟩
            | none =>
              ⟨[Event.verify bearer,
                Event.returnStatus 500 "Not able to identify user."], false, st⟩
    else
      -- Check if user session is valid
      match st.get env.storeGetErr r userSessionCookie with
      | Except.error _ =>
        ⟨[Event.storeGet userSessionCookie,
          Event.returnStatus 500 "Couldn't get user session."], false, st⟩
      | Except.ok session =>
        if !session.isNew then
          match session.values.lookup "userid" with
          | some (Value.str userID) =>
            let t : List Event :=
              Event.storeGet userSessionCookie ::
                (if userID ≠ "" then
                  [Event.setHeader s.userIDOpts.header (s.userIDOpts.pfx ++ userID)]
                else [])
            if s.userIDOpts.tokenHeader ≠ "" then
              match session.values.lookup "idtoken" with
              | some (Value.str idtoken) =>
                ⟨t ++ [Event.setHeader s.userIDOpts.tokenHeader idtoken,
                       Event.returnStatus 200 "OK"], false, st⟩
              | _ => ⟨t, true, st⟩
            else
              ⟨t ++ [Event.returnStatus 200 "OK"], false, st⟩
          | _ => ⟨[Event.storeGet userSessionCookie], true, st⟩
        else
          -- User is NOT logged in: initiate the OIDC flow
          match env.stateSave r.url with
          | Except.error _ =>
            ⟨[Event.storeGet userSessionCookie, Event.stateSave r.url,
              Event.returnStatus 500 "Failed to save state in store."], false, st⟩
          | Except.ok id =>
            ⟨[Event.storeGet userSessionCookie, Event.stateSave r.url,
              Event.redirect (env.authCodeURL id) 302], false, st⟩

/-! ## callback -/

/-- The call `r.FormValue(key)`: the first value of the key, or the empty
string. -/
def Request.FormValue (r : Request) (key : String) : String :=
  (r.form.lookup key).getD ""

/-- The events of lines 157-161 of `callback`: the state is loaded, and a
failure is answered with 500; the handler goes on in both cases. -/
def loadEvents (stateID : String) (loaded : LoadResult) : List Event :=
  match loaded.err with
  | some _ => [Event.load stateID, Event.returnStatus 500 "Failed to retrieve state."]
  | none => [Event.load stateID]

/-- The session that lines 198-207 of `callback` build. -/
def callbackSession (s : server) (userID : String) (claims : Claims)
    (rawIDToken : String) (oauth2Tokens : OAuth2Token) : Session :=
  let session := NewSession userSessionCookie
  let session := { session with
    options := { path := "/", maxAge := s.sessionMaxAgeSeconds,
                 secure := true, httpOnly := true } }
  let values := setValue session.values userSessionUserID (Value.str userID)
  let values := setValue values userSessionClaims (Value.claims claims)
  let values := setValue values userSessionIDToken (Value.str rawIDToken)
  let values := setValue values userSessionOAuth2Tokens (Value.token oauth2Tokens)
  { session with values := values }

/-- The handler `server.callback` of `handlers.go`. -/
def callback (s : server) (env : Env) : Handler :=
  fun st r =>
    let authCode := r.FormValue "code"
    if authCode.length = 0 then
      ⟨[Event.returnStatus 400 "Missing url parameter: code"], false, st⟩
    else
    let stateID := r.FormValue "state"
    if stateID.length = 0 then
      ⟨[Event.returnStatus 400 "Missing url parameter: state"], false, st⟩
    else
    -- load the state; on an error the status is written and nothing returns
    let loaded := env.load stateID
    let t := loadEvents stateID loaded ++ [Event.exchange authCode]
    match env.exchange authCode with
    | Except.error _ =>
      ⟨t ++ [Event.returnStatus 500
          "Failed to exchange authorization code with token."], false, st⟩
    | Except.ok oauth2Tokens =>
      match oauth2Tokens.idToken with
      | none =>
        ⟨t ++ [Event.returnStatus 500 "No id_token field in OAuth 2.0 token."],
          false, st⟩
      | some rawIDToken =>
        let t := t ++ [Event.verify rawIDToken]
        match env.verify rawIDToken with
        | Except.error _ =>
          ⟨t ++ [Event.returnStatus 500 "Unable to verify ID token."], false, st⟩
        | Except.ok idToken =>
          match idToken.claims with
          | Except.error _ =>
            ⟨t ++ [Event.returnStatus 500 "Not able to fetch userinfo claims."],
              false, st⟩
          | Except.ok claims =>
            -- User is authenticated, create new session.
            match claims.lookup s.userIDOpts.claim with
            | some (ClaimValue.str userID) =>
              let session := callbackSession s userID claims rawIDToken oauth2Tokens
              let t := t ++ [Event.sessionSave session]
              let st := saveTo st env session
              -- Getting original destination from DB with state
              match loaded.state with
              | none => ⟨t, true, st⟩
              | some state =>
                let destination :=
                  if s.staticDestination ≠ "" then s.staticDestination
                  else state.origURL
                ⟨t ++ [Event.redirect destination 302], false, st⟩
            | _ => ⟨t, true, st⟩

/-! ## logout -/

/-- The status that lines 251-257 of `logout` choose for a failed revocation. -/
def revokeStatus (err : RevokeError) : Nat :=
  match err with
  | RevokeError.requestError statusCode =>
    if statusCode = 503 then statusCode else 500
  | RevokeError.other _ => 500

/-- The session of `logout` after `session.Options.MaxAge = -1`. -/
def expire (session : Session) : Session :=
  { session with options := { session.options with maxAge := -1 } }

/-- The handler `server.logout` of `handlers.go`. -/
def logout (s : server) (env : Env) : Handler :=
  fun st r =>
    match st.get env.storeGetErr r userSessionCookie with
    | Except.error _ =>
      ⟨[Event.storeGet userSessionCookie, Event.redirect "/" 303], false, st⟩
    | Except.ok session =>
      if session.isNew then
        ⟨[Event.storeGet userSessionCookie, Event.redirect "/" 303], false, st⟩
      else
      let t := [Event.storeGet userSessionCookie, Event.revocationEndpoint]
      -- lines 264-269
      let finish (t : List Event) : Run :=
        ⟨t ++ [Event.sessionSave (expire session), Event.redirect "/" 303], false,
          saveTo st env (expire session)⟩
      -- Check if the provider has a revocation_endpoint
      match env.revocationEndpoint with
      | Except.error _ => finish t
      | Except.ok endpoint =>
        match session.values.lookup userSessionOAuth2Tokens with
        | some (Value.token token) =>
          let t := t ++ [Event.revokeTokens endpoint token]
          match env.revokeTokens endpoint token s.clientID s.clientSecret with
          | some err =>
            ⟨t ++ [Event.returnStatus (revokeStatus err)
                "Failed to revoke access/refresh tokens, please try again"],
              false, st⟩
          | none =>
            match session.values.lookup userSessionUserID with
            | some (Value.str _) => finish t
            | _ => ⟨t, true, st⟩
        | _ => ⟨t, true, st⟩

/-! ## readiness and the route table of main -/

/-- The handler that `readiness(isReady)` returns. -/
def readiness (isReady : Bool) : Handler :=
  fun st _ =>
    let code := if !isReady then 503 else 200
    ⟨[Event.writeHeader code], false, st⟩

/-- The router that `main` builds (lines 130-134 of `main.go`), by the route
matching of `mux`: the first route whose path and method match serves the
request, and a request that no route matches is answered 404. The three
handlers are parameters. The CORS wrapper and the path cleaning of `mux` are
outside the embedding. -/
def router (callbackH logoutH authenticateH : Handler) (whitelist : List String)
    (isReady : Bool) : Handler :=
  fun st r =>
    if r.path = "/login/oidc" ∧ r.method = "GET" then
      callbackH st r
    else if r.path = "/logout" ∧ r.method = "POST" then
      logoutH st r
    else if hasPrefix r.path "/" then
      whitelistMiddleware whitelist isReady authenticateH st r
    else
      ⟨[Event.writeHeader 404], false, st⟩

/-! ## The response of a run -/

/-- Modelled from the spec: `returnStatus` (a helper of this repository that is
not under src/) answers the request with the given status code. The status of
the response is the code of the first status written, by `returnStatus`, by
`http.Redirect` or by `w.WriteHeader`. -/
def responseStatus : List Event → Option Nat
  | [] => none
  | Event.returnStatus code _ :: _ => some code
  | Event.redirect _ code :: _ => some code
  | Event.writeHeader code :: _ => some code
  | _ :: rest => responseStatus rest

/-- The value of the response header `key` after the `w.Header().Set` calls
of a trace: the last value set under the same canonical key. -/
def responseHeader (canon : String → String) : List Event → String → Option String
  | [], _ => none
  | ev :: rest, key =>
    match responseHeader canon rest key with
    | some v => some v
    | none =>
      match ev with
      | Event.setHeader k v => if canon k = canon key then some v else none
      | _ => none

/-! ## The web server -/

/-- The template name `tmplLanding` of `web_server.go`. -/
def tmplLanding : String := "homepage.html"
/-- The template name `tmplAfterLogout` of `web_server.go`. -/
def tmplAfterLogout : String := "after_logout.html"
/-- The path `HomepagePath` of `web_server.go`. -/
def HomepagePath : String := "/site/homepage"
/-- The path `AfterLogoutPath` of `web_server.go`. -/
def AfterLogoutPath : String := "/site/after_logout"
/-- The path `AssetsPath` of `web_server.go`. -/
def AssetsPath : String := "/site/assets"

/-- What `WebServer.Start` reads from the disk. -/
structure WebFiles where
  /-- The names of the templates that `ParseFiles` parsed from the
  `TemplatePaths`, those for which `templates.Lookup` is not nil. -/
  templates : List String
  /-- The status with which `http.FileServer(http.Dir("web/assets"))` answers
  the request of a path. -/
  fileServer : String → Nat

/-- The answer of the web server to a request. -/
inductive WebAnswer where
  /-- The handler of a page executed this template: the status is 200. -/
  | page (tmpl : String)
  /-- The file server answered the request of this path with this status. -/
  | asset (path : String) (status : Nat)
  /-- No route matches: 404. -/
  | notFound
  /-- A route matches the path but not the method: 405. -/
  | methodNotAllowed
  /-- The handler panicked. -/
  | panicked
  deriving DecidableEq, Repr

/-- The status of an answer of the web server. -/
def WebAnswer.status : WebAnswer → Option Nat
  | WebAnswer.page _ => some 200
  | WebAnswer.asset _ status => some status
  | WebAnswer.notFound => some 404
  | WebAnswer.methodNotAllowed => some 405
  | WebAnswer.panicked => none

/-- The handler `siteHandler(templates.Lookup(tmpl), data)`: it executes the
template, and `tmpl.Execute` on the nil template of a missing name panics. -/
def siteHandler (files : WebFiles) (tmpl : String) : WebAnswer :=
  if tmpl ∈ files.templates then WebAnswer.page tmpl else WebAnswer.panicked

/-- The router that `WebServer.Start` builds (lines 58-84 of
`web_server.go`), by the route matching of `mux`: the two pages are matched
by their exact path and the method GET, the assets by the path prefix, served
by the file server on the path stripped of `AssetsPath`. The CORS wrapper and
the path cleaning of `mux` are outside the embedding. -/
def webRouter (files : WebFiles) (r : Request) : WebAnswer :=
  if r.path = HomepagePath ∧ r.method = "GET" then
    siteHandler files tmplLanding
  else if r.path = AfterLogoutPath ∧ r.method = "GET" then
    siteHandler files tmplAfterLogout
  else if hasPrefix r.path AssetsPath then
    WebAnswer.asset (trimPrefix r.path AssetsPath)
      (files.fileServer (trimPrefix r.path AssetsPath))
  else if r.path = HomepagePath ∨ r.path = AfterLogoutPath then
    WebAnswer.methodNotAllowed
  else
    WebAnswer.notFound

/-! ## Concrete inputs -/

/-- A server configured as `main` does by default, with a user id prefix. -/
def exampleServer : server :=
  { clientID := "client", clientSecret := "secret",
    afterLoginRedirectURL := "", homepageURL := "/authservice/site/homepage",
    afterLogoutRedirectURL := "/authservice/site/after_logout",
    authHeader := "X-Auth-Token", staticDestination := "",
    sessionMaxAgeSeconds := 86400,
    userIDOpts := { header := "kubeflow-userid", tokenHeader := "kubeflow-userid-token",
                    pfx := "accounts:", claim := "email" } }

/-- The tokens that the example provider hands out. -/
def exampleToken : OAuth2Token :=
  { accessToken := "access", refreshToken := "refresh", idToken := some "raw" }

/-- A provider and stores that never fail: every token verifies to the given
claims, every code is exchanged, every state id loads the pending login to
`/notebooks`, and the revocation endpoint accepts every token. -/
def exampleEnv (claims : Claims) : Env :=
  { verify := fun _ => Except.ok { claims := Except.ok claims },
    exchange := fun _ => Except.ok exampleToken,
    load := fun _ => { state := some { origURL := "/notebooks" }, err := none },
    stateSave := fun _ => Except.ok "state1",
    authCodeURL := fun id => "https://provider/auth?state=" ++ id,
    revocationEndpoint := Except.ok "https://provider/revoke",
    revokeTokens := fun _ _ _ _ => none,
    storeGetErr := none,
    saveErr := none,
    freshID := "sid1",
    canon := fun key => key }

/-- A request to a protected page that carries a bearer token. -/
def bearerRequest : Request :=
  { method := "GET", path := "/notebooks", url := "/notebooks",
    authorization := "Bearer tok", form := [], sessionCookie := none }

/-- The provider's redirect back to the callback with a code and a state. -/
def callbackRequest : Request :=
  { method := "GET", path := "/login/oidc", url := "/login/oidc?code=c1&state=s1",
    authorization := "", form := [("code", "c1"), ("state", "s1")],
    sessionCookie := none }

/-- A request to the callback route without any parameter. -/
def bareCallbackRequest : Request :=
  { method := "GET", path := "/login/oidc", url := "/login/oidc",
    authorization := "", form := [], sessionCookie := none }

/-- A logout request carrying the cookie of session `sid1`. -/
def logoutRequest : Request :=
  { method := "POST", path := "/logout", url := "/logout",
    authorization := "", form := [], sessionCookie := some "sid1" }

/-- A page request carrying the cookie of session `sid1`. -/
def cookieRequest : Request :=
  { method := "GET", path := "/notebooks", url := "/notebooks",
    authorization := "", form := [], sessionCookie := some "sid1" }

/-- The session that `callback` persists for `alice@example.com`. -/
def aliceSession : Session :=
  { callbackSession exampleServer "alice@example.com"
      [("email", ClaimValue.str "alice@example.com")] "raw" exampleToken with
    id := "sid1" }

/-- The store holding the session of alice under `sid1`. -/
def aliceStore : Store := { records := [("sid1", aliceSession)] }

/-- The empty store. -/
def emptyStore : Store := { records := [] }

/-- The example server with the token header configured under the name of
the identity header. -/
def sharedHeaderServer : server :=
  { exampleServer with
    userIDOpts := { exampleServer.userIDOpts with tokenHeader := "kubeflow-userid" } }

/-- The example collaborators with a state store that does not know the
state id: `load` returns a nil state and an error. -/
def failingLoadEnv : Env :=
  { exampleEnv [("email", ClaimValue.str "alice@example.com")] with
    load := fun _ => { state := none, err := some "session does not exist" } }

/-- The example collaborators with a session store whose save fails. -/
def failingSaveEnv : Env :=
  { exampleEnv [("email", ClaimValue.str "alice@example.com")] with
    saveErr := some "database not open" }

/-- A callback request that has a code but no state. -/
def codeOnlyRequest : Request :=
  { method := "GET", path := "/login/oidc", url := "/login/oidc?code=c1",
    authorization := "", form := [("code", "c1")], sessionCookie := none }

/-- The example collaborators with a provider that answers the revocation
with 503. -/
def unavailableRevokeEnv : Env :=
  { exampleEnv [] with revokeTokens := fun _ _ _ _ => some (RevokeError.requestError 503) }

/-- The example collaborators with a revocation that fails without a response
of the provider. -/
def brokenRevokeEnv : Env :=
  { exampleEnv [] with revokeTokens := fun _ _ _ _ => some (RevokeError.other "connection refused") }

/-- The request of the landing page that `TestWebServerDefault` makes. -/
def landingRequest : Request :=
  { method := "GET", path := "/site/landing", url := "/site/landing",
    authorization := "", form := [], sessionCookie := none }

/-- The request of the path `HomepagePath`. -/
def homepageRequest : Request :=
  { method := "GET", path := "/site/homepage", url := "/site/homepage",
    authorization := "", form := [], sessionCookie := none }

/-- The request of the after-logout page that `TestWebServerDefault` makes. -/
def afterLogoutRequest : Request :=
  { method := "GET", path := "/site/after_logout", url := "/site/after_logout",
    authorization := "", form := [], sessionCookie := none }

/-- The request of an image that `TestWebServerDefault` makes. -/
def imageRequest : Request :=
  { method := "GET", path := "/site/assets/themes/ekf/bg.svg",
    url := "/site/assets/themes/ekf/bg.svg",
    authorization := "", form := [], sessionCookie := none }

/-! ## Theorems -/

theorem hasPrefix_iff (s pfx : String) :
    hasPrefix s pfx = true ↔ ∃ t : String, s = pfx ++ t := by
  unfold hasPrefix
  rw [List.isPrefixOf_iff_prefix]
  constructor
  · rintro ⟨t, ht⟩
    refine ⟨⟨t⟩, ?_⟩
    apply String.ext
    simp [← ht]
  · rintro ⟨t, rfl⟩
    exact ⟨t.data, by simp⟩

theorem whitelisted_iff (whitelist : List String) (path : String) :
    whitelisted whitelist path = true ↔ ∃ p ∈ whitelist, hasPrefix path p = true := by
  induction whitelist with
  | nil => simp [whitelisted]
  | cons p rest ih =>
    by_cases h : hasPrefix path p = true
    · simp [whitelisted, h]
    · simp [whitelisted, h, ih]

theorem whitelisted_perm {l₁ l₂ : List String} (h : l₁.Perm l₂) (path : String) :
    whitelisted l₁ path = whitelisted l₂ path := by
  rw [Bool.eq_iff_iff, whitelisted_iff, whitelisted_iff]
  constructor
  · rintro ⟨p, hp, hpp⟩
    exact ⟨p, h.mem_iff.mp hp, hpp⟩
  · rintro ⟨p, hp, hpp⟩
    exact ⟨p, h.mem_iff.mpr hp, hpp⟩

/-- C1: whitelistMiddleware answers 200 without calling the wrapped handler
when some whitelist entry is a literal string prefix of the URL path, whatever
the readiness flag; otherwise answers 503 without calling it when the flag is
unset; otherwise its run is exactly the run of the wrapped handler (called
once, nothing written by the middleware). The run is the same for every
reordering of the whitelist. -/
theorem whitelistMiddleware_decides (whitelist : List String) (isReady : Bool)
    (handler : Handler) (st : Store) (r : Request) :
    ((∃ p ∈ whitelist, ∃ t : String, r.path = p ++ t) →
      ∀ (ready : Bool) (h : Handler), whitelistMiddleware whitelist ready h st r
        = ⟨[Event.returnStatus 200 "OK"], false, st⟩) ∧
    ((¬ ∃ p ∈ whitelist, ∃ t : String, r.path = p ++ t) → isReady = false →
      ∀ h : Handler, whitelistMiddleware whitelist isReady h st r
        = ⟨[Event.returnStatus 503 "OIDC Setup is not complete yet."], false, st⟩) ∧
    ((¬ ∃ p ∈ whitelist, ∃ t : String, r.path = p ++ t) → isReady = true →
      whitelistMiddleware whitelist isReady handler st r = handler st r) ∧
    (∀ reordered : List String, whitelist.Perm reordered →
      whitelistMiddleware reordered isReady handler st r
        = whitelistMiddleware whitelist isReady handler st r) := by
  have key : (∃ p ∈ whitelist, ∃ t : String, r.path = p ++ t)
      ↔ whitelisted whitelist r.path = true := by
    rw [whitelisted_iff]
    simp only [hasPrefix_iff]
  refine ⟨?_, ?_, ?_, ?_⟩
  · intro hw ready h
    simp [whitelistMiddleware, key.mp hw]
  · intro hw hr h
    have : whitelisted whitelist r.path = false := by
      simpa using (not_congr key).mp hw
    simp [whitelistMiddleware, this, hr]
  · intro hw hr
    have : whitelisted whitelist r.path = false := by
      simpa using (not_congr key).mp hw
    simp [whitelistMiddleware, this, hr]
  · intro reordered hp
    simp [whitelistMiddleware, whitelisted_perm hp r.path]

/-! ### authenticate: the bearer path -/

theorem length_ne_zero_of_ne_empty {s : String} (h : s ≠ "") : s.length ≠ 0 := by
  intro h0
  have hd : s.data = [] := List.length_eq_zero.mp h0
  exact h (String.ext hd)

theorem authenticate_bearer_run (s : server) (env : Env) (st : Store) (r : Request)
    (idToken : IDToken) (claims : Claims)
    (hbearer : getBearerToken r.authorization ≠ "")
    (hverify : env.verify (getBearerToken r.authorization) = Except.ok idToken)
    (hclaims : idToken.claims = Except.ok claims) :
    authenticate s env st r =
      match claims.lookup s.userIDOpts.claim with
      | some (ClaimValue.str userID) =>
        ⟨Event.verify (getBearerToken r.authorization) ::
          bearerSuccess s userID (getBearerToken r.authorization), false, st⟩
      | some _ => ⟨[Event.verify (getBearerToken r.authorization)], true, st⟩
      | none =>
        match claims.lookup "sub" with
        | some (ClaimValue.str userID) =>
          ⟨Event.verify (getBearerToken r.authorization) ::
            bearerSuccess s userID (getBearerToken r.authorization), false, st⟩
        | some _ => ⟨[Event.verify (getBearerToken r.authorization)], true, st⟩
        | none =>
          ⟨[Event.verify (getBearerToken r.authorization),
            Event.returnStatus 500 "Not able to identify user."], false, st⟩ := by
  have hlen := length_ne_zero_of_ne_empty hbearer
  unfold authenticate
  show (if (getBearerToken r.authorization).length ≠ 0 then _ else _) = _
  rw [if_pos hlen]
  rw [hverify]
  show (match idToken.claims with | Except.error _ => _ | Except.ok claims => _) = _
  rw [hclaims]

theorem bearerSuccess_status (s : server) (userID bearer : String) :
    responseStatus (Event.verify bearer :: bearerSuccess s userID bearer) = some 200 := by
  unfold bearerSuccess
  by_cases h1 : userID = "" <;> by_cases h2 : s.userIDOpts.tokenHeader = "" <;>
    simp [h1, h2, responseStatus]

theorem bearerSuccess_header (s : server) (canon : String → String) (userID bearer : String)
    (hdistinct : s.userIDOpts.tokenHeader = "" ∨
      canon s.userIDOpts.tokenHeader ≠ canon s.userIDOpts.header) :
    responseHeader canon (Event.verify bearer :: bearerSuccess s userID bearer)
      s.userIDOpts.header
      = if userID = "" then none else some (s.userIDOpts.pfx ++ userID) := by
  unfold bearerSuccess
  by_cases hne : userID = ""
  · rcases hdistinct with h2 | h2
    · simp [hne, h2, responseHeader]
    · by_cases h3 : s.userIDOpts.tokenHeader = ""
      · simp [hne, h3, responseHeader]
      · simp [hne, h3, h2, responseHeader]
  · rcases hdistinct with h2 | h2
    · simp [hne, h2, responseHeader]
    · by_cases h3 : s.userIDOpts.tokenHeader = ""
      · simp [hne, h3, responseHeader]
      · simp [hne, h3, h2, responseHeader]

/-- C2 (as amended): for a request to authenticate with a non-empty bearer
token that verifies and whose claims decode, and a token header that is unset
or differs from the identity header: when the configured user claim is a
string v the response is 200, and the identity header is the prefix followed
by v when v is not empty and is not set when v is empty; when the configured
claim is absent and `sub` is a string u the same holds with u; when neither
claim is present the response is 500 and no header is set. -/
theorem authenticate_bearer_identity (s : server) (env : Env) (st : Store) (r : Request)
    (idToken : IDToken) (claims : Claims)
    (hbearer : getBearerToken r.authorization ≠ "")
    (hverify : env.verify (getBearerToken r.authorization) = Except.ok idToken)
    (hclaims : idToken.claims = Except.ok claims)
    (hdistinct : s.userIDOpts.tokenHeader = "" ∨
      env.canon s.userIDOpts.tokenHeader ≠ env.canon s.userIDOpts.header) :
    (∀ v : String, claims.lookup s.userIDOpts.claim = some (ClaimValue.str v) →
      (authenticate s env st r).panicked = false ∧
      responseStatus (authenticate s env st r).trace = some 200 ∧
      responseHeader env.canon (authenticate s env st r).trace s.userIDOpts.header
        = if v = "" then none else some (s.userIDOpts.pfx ++ v)) ∧
    (∀ u : String, claims.lookup s.userIDOpts.claim = none →
      claims.lookup "sub" = some (ClaimValue.str u) →
      (authenticate s env st r).panicked = false ∧
      responseStatus (authenticate s env st r).trace = some 200 ∧
      responseHeader env.canon (authenticate s env st r).trace s.userIDOpts.header
        = if u = "" then none else some (s.userIDOpts.pfx ++ u)) ∧
    (claims.lookup s.userIDOpts.claim = none → claims.lookup "sub" = none →
      (authenticate s env st r).panicked = false ∧
      responseStatus (authenticate s env st r).trace = some 500 ∧
      ∀ key : String, responseHeader env.canon (authenticate s env st r).trace key = none) := by
  have hrun := authenticate_bearer_run s env st r idToken claims hbearer hverify hclaims
  refine ⟨?_, ?_, ?_⟩
  · intro v hv
    rw [hrun, hv]
    exact ⟨rfl, bearerSuccess_status s v _, bearerSuccess_header s env.canon v _ hdistinct⟩
  · intro u hnone hu
    rw [hrun, hnone, hu]
    exact ⟨rfl, bearerSuccess_status s u _, bearerSuccess_header s env.canon u _ hdistinct⟩
  · intro hnone hsub
    rw [hrun, hnone, hsub]
    refine ⟨rfl, rfl, ?_⟩
    intro key
    simp [responseHeader]

/-- Witness of C2: the bearer request of a service account whose token has no
`email` claim but a `sub` claim. -/
theorem authenticate_bearer_identity_witness :
    responseStatus (authenticate exampleServer (exampleEnv [("sub", ClaimValue.str "svc")])
        emptyStore bearerRequest).trace = some 200 ∧
    responseHeader (exampleEnv [("sub", ClaimValue.str "svc")]).canon
        (authenticate exampleServer (exampleEnv [("sub", ClaimValue.str "svc")])
          emptyStore bearerRequest).trace "kubeflow-userid" = some "accounts:svc" :=
  ((authenticate_bearer_identity exampleServer (exampleEnv [("sub", ClaimValue.str "svc")])
      emptyStore bearerRequest { claims := Except.ok [("sub", ClaimValue.str "svc")] }
      [("sub", ClaimValue.str "svc")] (by decide) rfl rfl (Or.inr (by decide))).2.1
      "svc" (by decide) (by decide)).2

/-- Counterexample to C2 as stated: with the user claim present and empty the
response is 200 but the identity header is not set, so it is not the prefix
followed by the value; and when the token header has the name of the identity
header, that header carries the bearer token. -/
theorem authenticate_bearer_identity_fails :
    (getBearerToken bearerRequest.authorization = "tok" ∧
      responseStatus (authenticate exampleServer (exampleEnv [("email", ClaimValue.str "")])
        emptyStore bearerRequest).trace = some 200 ∧
      responseHeader (exampleEnv [("email", ClaimValue.str "")]).canon
        (authenticate exampleServer (exampleEnv [("email", ClaimValue.str "")])
          emptyStore bearerRequest).trace exampleServer.userIDOpts.header = none ∧
      exampleServer.userIDOpts.pfx ++ "" = "accounts:") ∧
    (responseHeader (exampleEnv [("email", ClaimValue.str "alice@example.com")]).canon
        (authenticate sharedHeaderServer
          (exampleEnv [("email", ClaimValue.str "alice@example.com")])
          emptyStore bearerRequest).trace sharedHeaderServer.userIDOpts.header = some "tok" ∧
      sharedHeaderServer.userIDOpts.pfx ++ "alice@example.com"
        = "accounts:alice@example.com") := by
  decide

/-! ### The route table -/

/-- C3 (as amended): every request other than GET /login/oidc and POST
/logout, under `/`, goes through the whitelist check, then the readiness
check, and only then to authenticate, and while the readiness flag is unset
authenticate is never invoked (the run does not depend on it); GET
/login/oidc and POST /logout have routes of their own, which the whitelist
does not cover: once the flag is set they are served by callback and by
logout, whatever the whitelist. -/
theorem router_gates_authenticate (callbackH logoutH authenticateH : Handler)
    (whitelist : List String) (isReady : Bool) (st : Store) (r : Request) :
    (r.path = "/login/oidc" ∧ r.method = "GET" → isReady = true →
      router callbackH logoutH authenticateH whitelist isReady st r = callbackH st r) ∧
    (r.path = "/logout" ∧ r.method = "POST" → isReady = true →
      router callbackH logoutH authenticateH whitelist isReady st r = logoutH st r) ∧
    (¬ (r.path = "/login/oidc" ∧ r.method = "GET") →
      ¬ (r.path = "/logout" ∧ r.method = "POST") →
      (∃ t : String, r.path = "/" ++ t) →
      (whitelisted whitelist r.path = true →
        router callbackH logoutH authenticateH whitelist isReady st r
          = ⟨[Event.returnStatus 200 "OK"], false, st⟩) ∧
      (whitelisted whitelist r.path = false → isReady = false →
        router callbackH logoutH authenticateH whitelist isReady st r
          = ⟨[Event.returnStatus 503 "OIDC Setup is not complete yet."], false, st⟩) ∧
      (whitelisted whitelist r.path = false → isReady = true →
        router callbackH logoutH authenticateH whitelist isReady st r
          = authenticateH st r)) ∧
    (∀ other : Handler,
      router callbackH logoutH authenticateH whitelist false st r
        = router callbackH logoutH other whitelist false st r) := by
  refine ⟨?_, ?_, ?_, ?_⟩
  · intro h _
    simp [router, h]
  · intro h2 _
    have h1 : ¬ (r.path = "/login/oidc" ∧ r.method = "GET") := by
      rintro ⟨hp, _⟩
      rw [h2.1] at hp
      exact absurd hp (by decide)
    simp only [router, if_neg h1, if_pos h2]
  · intro h1 h2 h3
    have hp : hasPrefix r.path "/" = true := (hasPrefix_iff _ _).mpr h3
    refine ⟨?_, ?_, ?_⟩
    · intro hw
      simp only [router, if_neg h1, if_neg h2, hp, if_true, whitelistMiddleware, hw]
    · intro hw hr
      simp [router, h1, h2, hp, whitelistMiddleware, hw, hr]
    · intro hw hr
      simp [router, h1, h2, hp, whitelistMiddleware, hw, hr]
  · intro other
    simp only [router, whitelistMiddleware]
    split
    · rfl
    · split
      · rfl
      · split
        · split
          · rfl
          · simp
        · rfl

/-- Counterexample to C3 as stated: a GET to /login/oidc is served by
callback, which answers 400 for the missing code, both when the readiness
flag is unset, where the middleware would have answered 503, and when the
whitelist covers the path, where the middleware would have answered 200. -/
theorem router_callback_bypasses_gate :
    (router (callback exampleServer (exampleEnv [])) (logout exampleServer (exampleEnv []))
        (authenticate exampleServer (exampleEnv [])) [] false emptyStore bareCallbackRequest
        = ⟨[Event.returnStatus 400 "Missing url parameter: code"], false, emptyStore⟩ ∧
      whitelistMiddleware [] false (callback exampleServer (exampleEnv [])) emptyStore
          bareCallbackRequest
        = ⟨[Event.returnStatus 503 "OIDC Setup is not complete yet."], false, emptyStore⟩) ∧
    (router (callback exampleServer (exampleEnv [])) (logout exampleServer (exampleEnv []))
        (authenticate exampleServer (exampleEnv [])) ["/login"] true emptyStore
        bareCallbackRequest
        = ⟨[Event.returnStatus 400 "Missing url parameter: code"], false, emptyStore⟩ ∧
      whitelistMiddleware ["/login"] true (callback exampleServer (exampleEnv [])) emptyStore
          bareCallbackRequest
        = ⟨[Event.returnStatus 200 "OK"], false, emptyStore⟩) := by
  decide

/-! ### callback -/

theorem sessionSave_not_mem_loadEvents (sess : Session) (stateID : String)
    (loaded : LoadResult) : Event.sessionSave sess ∉ loadEvents stateID loaded := by
  unfold loadEvents
  split <;> simp

theorem callbackSession_userID (s : server) (userID : String) (claims : Claims)
    (rawIDToken : String) (oauth2Tokens : OAuth2Token) :
    (callbackSession s userID claims rawIDToken oauth2Tokens).values.lookup userSessionUserID
      = some (Value.str userID) := by
  simp [callbackSession, setValue, NewSession, userSessionUserID, userSessionClaims,
    userSessionIDToken, userSessionOAuth2Tokens, List.lookup]

theorem callback_verified_run (s : server) (env : Env) (st : Store) (r : Request)
    (tok : OAuth2Token) (raw : String) (idToken : IDToken) (claims : Claims)
    (hcode : r.FormValue "code" ≠ "") (hstate : r.FormValue "state" ≠ "")
    (hex : env.exchange (r.FormValue "code") = Except.ok tok)
    (hid : tok.idToken = some raw)
    (hver : env.verify raw = Except.ok idToken)
    (hcl : idToken.claims = Except.ok claims) :
    callback s env st r =
      match claims.lookup s.userIDOpts.claim with
      | some (ClaimValue.str userID) =>
        match (env.load (r.FormValue "state")).state with
        | none =>
          ⟨loadEvents (r.FormValue "state") (env.load (r.FormValue "state")) ++
              [Event.exchange (r.FormValue "code")] ++ [Event.verify raw] ++
              [Event.sessionSave (callbackSession s userID claims raw tok)], true,
            saveTo st env (callbackSession s userID claims raw tok)⟩
        | some state =>
          ⟨loadEvents (r.FormValue "state") (env.load (r.FormValue "state")) ++
              [Event.exchange (r.FormValue "code")] ++ [Event.verify raw] ++
              [Event.sessionSave (callbackSession s userID claims raw tok)] ++
              [Event.redirect (if s.staticDestination ≠ "" then s.staticDestination
                else state.origURL) 302], false,
            saveTo st env (callbackSession s userID claims raw tok)⟩
      | _ =>
        ⟨loadEvents (r.FormValue "state") (env.load (r.FormValue "state")) ++
            [Event.exchange (r.FormValue "code")] ++ [Event.verify raw], true, st⟩ := by
  have h1 := length_ne_zero_of_ne_empty hcode
  have h2 := length_ne_zero_of_ne_empty hstate
  unfold callback
  show (if (r.FormValue "code").length = 0 then _ else _) = _
  rw [if_neg h1]
  show (if (r.FormValue "state").length = 0 then _ else _) = _
  rw [if_neg h2]
  simp only [hex, hid, hver, hcl]

/-- C4: at the failing input, a callback whose state fails to load (nil state,
error `session does not exist`) writes the 500 and then goes on: it exchanges
the code, verifies the ID token and saves a session, and panics on the nil
state. -/
theorem callback_continues_after_failed_load :
    callback exampleServer failingLoadEnv emptyStore callbackRequest
      = ⟨[Event.load "s1", Event.returnStatus 500 "Failed to retrieve state.",
          Event.exchange "c1", Event.verify "raw",
          Event.sessionSave (callbackSession exampleServer "alice@example.com"
            [("email", ClaimValue.str "alice@example.com")] "raw" exampleToken)],
         true, aliceStore⟩ := by
  decide

/-- C5: at the failing input, a callback whose verified claims have `sub` but
not the configured claim `email` panics before any session is saved and
without a redirect, while authenticate resolves the same claims to `sub`. -/
theorem callback_has_no_sub_fallback :
    callback exampleServer (exampleEnv [("sub", ClaimValue.str "alice")]) emptyStore
        callbackRequest
      = ⟨[Event.load "s1", Event.exchange "c1", Event.verify "raw"], true, emptyStore⟩ ∧
    authenticate exampleServer (exampleEnv [("sub", ClaimValue.str "alice")]) emptyStore
        bearerRequest
      = ⟨[Event.verify "tok", Event.setHeader "kubeflow-userid" "accounts:alice",
          Event.setHeader "kubeflow-userid-token" "tok", Event.returnStatus 200 "OK"],
         false, emptyStore⟩ := by
  decide

theorem callback_saved_session (s : server) (env : Env) (st : Store) (r : Request)
    (sess : Session) (h : Event.sessionSave sess ∈ (callback s env st r).trace) :
    ∃ (tok : OAuth2Token) (raw : String) (idToken : IDToken) (claims : Claims) (v : String),
      env.exchange (r.FormValue "code") = Except.ok tok ∧ tok.idToken = some raw ∧
      env.verify raw = Except.ok idToken ∧ idToken.claims = Except.ok claims ∧
      claims.lookup s.userIDOpts.claim = some (ClaimValue.str v) ∧
      sess.values.lookup userSessionUserID = some (Value.str v) := by
  have hl := sessionSave_not_mem_loadEvents sess (r.FormValue "state")
    (env.load (r.FormValue "state"))
  unfold callback at h
  simp only [] at h
  split at h
  · simp at h
  · split at h
    · simp at h
    · split at h
      · simp [hl] at h
      · rename_i tok hex
        split at h
        · simp [hl] at h
        · rename_i raw hid
          split at h
          · simp [hl] at h
          · rename_i idToken hver
            split at h
            · simp [hl] at h
            · rename_i claims hcl
              split at h
              · rename_i v hv
                have hs : sess = callbackSession s v claims raw tok := by
                  split at h <;> simpa [hl] using h
                refine ⟨tok, raw, idToken, claims, v, hex, hid, hver, hcl, hv, ?_⟩
                rw [hs]
                exact callbackSession_userID s v claims raw tok
              · simp [hl] at h

/-- C6 (as amended): when the verified claims of a callback carry the
configured user claim with the string value v, every session that callback
saves has userID v: it is not empty when v is not empty, and it is empty when
v is the empty string. -/
theorem callback_saved_userID (s : server) (env : Env) (st : Store) (r : Request)
    (sess : Session) (tok : OAuth2Token) (raw : String) (idToken : IDToken)
    (claims : Claims) (v : String)
    (hex : env.exchange (r.FormValue "code") = Except.ok tok)
    (hid : tok.idToken = some raw)
    (hver : env.verify raw = Except.ok idToken)
    (hcl : idToken.claims = Except.ok claims)
    (huser : claims.lookup s.userIDOpts.claim = some (ClaimValue.str v))
    (h : Event.sessionSave sess ∈ (callback s env st r).trace) :
    sess.values.lookup userSessionUserID = some (Value.str v) ∧
    (sess.values.lookup userSessionUserID = some (Value.str "") ↔ v = "") := by
  obtain ⟨tok', raw', idToken', claims', v', hex', hid', hver', hcl', huser', hu⟩ :=
    callback_saved_session s env st r sess h
  have e1 : tok' = tok := by
    rw [hex] at hex'
    injection hex' with hex'
    exact hex'.symm
  subst e1
  have e2 : raw' = raw := by
    rw [hid] at hid'
    injection hid' with hid'
    exact hid'.symm
  subst e2
  have e3 : idToken' = idToken := by
    rw [hver] at hver'
    injection hver' with hver'
    exact hver'.symm
  subst e3
  have e4 : claims' = claims := by
    rw [hcl] at hcl'
    injection hcl' with hcl'
    exact hcl'.symm
  subst e4
  have e5 : v' = v := by
    rw [huser] at huser'
    injection huser' with huser'
    injection huser' with huser'
    exact huser'.symm
  subst e5
  refine ⟨hu, ?_⟩
  rw [hu]
  constructor
  · intro h'
    injection h' with h'
    injection h'
  · intro h'
    rw [h']

/-- Witness of C6: the session that callback saves for alice. -/
theorem callback_saved_userID_witness :
    (callbackSession exampleServer "alice@example.com"
        [("email", ClaimValue.str "alice@example.com")] "raw" exampleToken).values.lookup
          userSessionUserID = some (Value.str "alice@example.com") :=
  (callback_saved_userID exampleServer
    (exampleEnv [("email", ClaimValue.str "alice@example.com")]) emptyStore callbackRequest
    (callbackSession exampleServer "alice@example.com"
      [("email", ClaimValue.str "alice@example.com")] "raw" exampleToken)
    exampleToken "raw" { claims := Except.ok [("email", ClaimValue.str "alice@example.com")] }
    [("email", ClaimValue.str "alice@example.com")] "alice@example.com"
    rfl rfl rfl rfl (by decide) (by decide)).1

/-- Counterexample to C6 as stated: when the verified claims carry the
configured claim with the empty string as value, callback saves a session
whose userID is empty, and the store holds it afterwards. -/
theorem callback_persists_empty_userID :
    Event.sessionSave (callbackSession exampleServer ""
        [("email", ClaimValue.str "")] "raw" exampleToken)
      ∈ (callback exampleServer (exampleEnv [("email", ClaimValue.str "")]) emptyStore
          callbackRequest).trace ∧
    (callbackSession exampleServer "" [("email", ClaimValue.str "")] "raw"
        exampleToken).values.lookup userSessionUserID = some (Value.str "") ∧
    ((callback exampleServer (exampleEnv [("email", ClaimValue.str "")]) emptyStore
        callbackRequest).store.find "sid1").map
          (fun sess => sess.values.lookup userSessionUserID)
      = some (some (Value.str "")) := by
  decide

/-- C9 (as amended): when the parameters are present, the state is loaded,
the code is exchanged, the ID token is verified, the claims decode and the
configured user claim is a string, callback saves the session and answers with
a 302 redirect to the static destination when that is not empty and to the
`origURL` of the loaded state otherwise; the response is the same whether the
save succeeds or fails, and a failed save leaves the store as it was. -/
theorem callback_redirects (s : server) (env : Env) (st : Store) (r : Request)
    (state : State) (tok : OAuth2Token) (raw : String) (idToken : IDToken)
    (claims : Claims) (v : String)
    (hcode : r.FormValue "code" ≠ "") (hstate : r.FormValue "state" ≠ "")
    (hload : env.load (r.FormValue "state") = { state := some state, err := none })
    (hex : env.exchange (r.FormValue "code") = Except.ok tok)
    (hid : tok.idToken = some raw)
    (hver : env.verify raw = Except.ok idToken)
    (hcl : idToken.claims = Except.ok claims)
    (huser : claims.lookup s.userIDOpts.claim = some (ClaimValue.str v)) :
    (callback s env st r).panicked = false ∧
    (callback s env st r).trace
      = [Event.load (r.FormValue "state"), Event.exchange (r.FormValue "code"),
         Event.verify raw, Event.sessionSave (callbackSession s v claims raw tok),
         Event.redirect (if s.staticDestination ≠ "" then s.staticDestination
           else state.origURL) 302] ∧
    responseStatus (callback s env st r).trace = some 302 ∧
    (∀ e : String, env.saveErr = some e → (callback s env st r).store = st) := by
  have hrun := callback_verified_run s env st r tok raw idToken claims hcode hstate
    hex hid hver hcl
  rw [huser, hload] at hrun
  simp only [loadEvents] at hrun
  rw [hrun]
  refine ⟨rfl, rfl, rfl, ?_⟩
  intro e he
  simp [saveTo, he]

/-- Witness of C9: the callback of alice with a session store that fails to
save. -/
theorem callback_redirects_witness :
    (callback exampleServer failingSaveEnv emptyStore callbackRequest).trace
      = [Event.load "s1", Event.exchange "c1", Event.verify "raw",
         Event.sessionSave (callbackSession exampleServer "alice@example.com"
           [("email", ClaimValue.str "alice@example.com")] "raw" exampleToken),
         Event.redirect "/notebooks" 302] :=
  (callback_redirects exampleServer failingSaveEnv emptyStore callbackRequest
    { origURL := "/notebooks" } exampleToken "raw"
    { claims := Except.ok [("email", ClaimValue.str "alice@example.com")] }
    [("email", ClaimValue.str "alice@example.com")] "alice@example.com"
    (by decide) (by decide) rfl rfl rfl rfl rfl (by decide)).2.1

/-- Counterexample to C9 as stated: all the steps up to the decoding of the
claims succeed, but the claims lack the configured user claim, or carry it
with a value that is not a string, and callback panics without a redirect:
no status is written. -/
theorem callback_panics_without_user_claim :
    (callback exampleServer (exampleEnv []) emptyStore callbackRequest
        = ⟨[Event.load "s1", Event.exchange "c1", Event.verify "raw"], true, emptyStore⟩ ∧
      responseStatus (callback exampleServer (exampleEnv []) emptyStore
        callbackRequest).trace = none) ∧
    (callback exampleServer (exampleEnv [("email", ClaimValue.num 7)]) emptyStore
        callbackRequest
        = ⟨[Event.load "s1", Event.exchange "c1", Event.verify "raw"], true, emptyStore⟩ ∧
      responseStatus (callback exampleServer (exampleEnv [("email", ClaimValue.num 7)])
        emptyStore callbackRequest).trace = none) := by
  decide

/-- C10: a callback request whose `code` or `state` parameter is missing or
empty is answered 400 and nothing else happens: the trace is that single
answer, no panic, and the store is unchanged. -/
theorem callback_missing_parameter (s : server) (env : Env) (st : Store) (r : Request)
    (h : r.FormValue "code" = "" ∨ r.FormValue "state" = "") :
    (∃ msg : String,
      callback s env st r = ⟨[Event.returnStatus 400 msg], false, st⟩) ∧
    responseStatus (callback s env st r).trace = some 400 := by
  by_cases hc : r.FormValue "code" = ""
  · have h0 : (r.FormValue "code").length = 0 := by rw [hc]; rfl
    have hrun : callback s env st r
        = ⟨[Event.returnStatus 400 "Missing url parameter: code"], false, st⟩ := by
      unfold callback
      show (if (r.FormValue "code").length = 0 then _ else _) = _
      rw [if_pos h0]
    exact ⟨⟨_, hrun⟩, by rw [hrun]; rfl⟩
  · have hs : r.FormValue "state" = "" := h.resolve_left hc
    have h0 : (r.FormValue "state").length = 0 := by rw [hs]; rfl
    have h1 := length_ne_zero_of_ne_empty hc
    have hrun : callback s env st r
        = ⟨[Event.returnStatus 400 "Missing url parameter: state"], false, st⟩ := by
      unfold callback
      show (if (r.FormValue "code").length = 0 then _ else _) = _
      rw [if_neg h1]
      show (if (r.FormValue "state").length = 0 then _ else _) = _
      rw [if_pos h0]
    exact ⟨⟨_, hrun⟩, by rw [hrun]; rfl⟩

/-- Witness of C10: a callback request that has a code but no state. -/
theorem callback_missing_parameter_witness :
    (∃ msg : String,
      callback exampleServer (exampleEnv []) emptyStore codeOnlyRequest
        = ⟨[Event.returnStatus 400 msg], false, emptyStore⟩) ∧
    responseStatus (callback exampleServer (exampleEnv []) emptyStore
      codeOnlyRequest).trace = some 400 :=
  callback_missing_parameter exampleServer (exampleEnv []) emptyStore codeOnlyRequest
    (Or.inr (by decide))

/-! ### logout -/

theorem get_valid (st : Store) (err : Option String) (r : Request) (name : String)
    (session : Session) (hget : st.get err r name = Except.ok session)
    (hvalid : session.isNew = false) :
    r.sessionCookie = some session.id := by
  unfold Store.get at hget
  split at hget
  · simp at hget
  · split at hget
    · simp only [Except.ok.injEq] at hget
      rw [← hget] at hvalid
      simp [NewSession] at hvalid
    · rename_i id hc
      split at hget
      · simp only [Except.ok.injEq] at hget
        rw [← hget, hc]
      · simp only [Except.ok.injEq] at hget
        rw [← hget] at hvalid
        simp [NewSession] at hvalid

theorem lookup_filter_ne (id : String) (l : List (String × Session)) :
    (l.filter (fun kv => kv.1 ≠ id)).lookup id = none := by
  induction l with
  | nil => rfl
  | cons kv rest ih =>
    by_cases h : kv.1 = id
    · rw [List.filter_cons_of_neg (by simpa using h)]
      exact ih
    · rw [List.filter_cons_of_pos (by simpa using h)]
      obtain ⟨k, v⟩ := kv
      have h' : (id == k) = false := by
        simpa using fun h'' => h h''.symm
      simp only [List.lookup_cons, h']
      exact ih

theorem find_delete (st : Store) (id : String) : (st.delete id).find id = none :=
  lookup_filter_ne id st.records

theorem logout_valid_run (s : server) (env : Env) (st : Store) (r : Request)
    (session : Session) (endpoint : String) (token : OAuth2Token)
    (hget : st.get env.storeGetErr r userSessionCookie = Except.ok session)
    (hvalid : session.isNew = false)
    (hend : env.revocationEndpoint = Except.ok endpoint)
    (htoken : session.values.lookup userSessionOAuth2Tokens = some (Value.token token)) :
    logout s env st r =
      match env.revokeTokens endpoint token s.clientID s.clientSecret with
      | some err =>
        ⟨[Event.storeGet userSessionCookie, Event.revocationEndpoint,
          Event.revokeTokens endpoint token,
          Event.returnStatus (revokeStatus err)
            "Failed to revoke access/refresh tokens, please try again"], false, st⟩
      | none =>
        match session.values.lookup userSessionUserID with
        | some (Value.str _) =>
          ⟨[Event.storeGet userSessionCookie, Event.revocationEndpoint,
            Event.revokeTokens endpoint token, Event.sessionSave (expire session),
            Event.redirect "/" 303], false, saveTo st env (expire session)⟩
        | _ =>
          ⟨[Event.storeGet userSessionCookie, Event.revocationEndpoint,
            Event.revokeTokens endpoint token], true, st⟩ := by
  unfold logout
  simp only [hget, hvalid, hend, htoken]
  cases env.revokeTokens endpoint token s.clientID s.clientSecret with
  | some err => simp
  | none =>
    simp only [Bool.false_eq_true, if_false]
    split <;> simp

theorem authenticate_after_delete (s : server) (env : Env) (st : Store) (r : Request)
    (id : String) (hc : r.sessionCookie = some id)
    (hb : getBearerToken r.authorization = "") :
    responseStatus (authenticate s env (st.delete id) r).trace ≠ some 200 ∧
    ∀ (canon : String → String) (key : String),
      responseHeader canon (authenticate s env (st.delete id) r).trace key = none := by
  have hlen : (getBearerToken r.authorization).length = 0 := by
    rw [hb]; rfl
  simp only [authenticate, hlen, ne_eq, not_true_eq_false, if_false, Store.get, hc,
    find_delete]
  cases env.storeGetErr with
  | some e => simp [responseStatus, responseHeader]
  | none =>
    simp only [NewSession]
    cases env.stateSave r.url with
    | error e => simp [responseStatus, responseHeader]
    | ok sid => simp [responseStatus, responseHeader]

/-- C7 (as amended): for a logout request that finds a valid session holding
its tokens, with a revocation endpoint discovered: when revocation fails, with
a 503 from the provider or with any other error, nothing is saved and the
store is left as it was; when revocation succeeds (and the stored userid is a
string) the session is saved with max-age -1, and once that save succeeds no
later authenticate call with the same cookie answers 200 or sets a header. -/
theorem logout_expires_when_revoked (s : server) (env : Env) (st : Store) (r : Request)
    (session : Session) (endpoint : String) (token : OAuth2Token)
    (hget : st.get env.storeGetErr r userSessionCookie = Except.ok session)
    (hvalid : session.isNew = false)
    (hend : env.revocationEndpoint = Except.ok endpoint)
    (htoken : session.values.lookup userSessionOAuth2Tokens = some (Value.token token)) :
    (∀ err : RevokeError,
      env.revokeTokens endpoint token s.clientID s.clientSecret = some err →
      (logout s env st r).store = st ∧
      ∀ sess : Session, Event.sessionSave sess ∉ (logout s env st r).trace) ∧
    (env.revokeTokens endpoint token s.clientID s.clientSecret = none →
      (∃ u : String, session.values.lookup userSessionUserID = some (Value.str u)) →
      (logout s env st r).trace
        = [Event.storeGet userSessionCookie, Event.revocationEndpoint,
           Event.revokeTokens endpoint token, Event.sessionSave (expire session),
           Event.redirect "/" 303] ∧
      (expire session).options.maxAge = -1 ∧
      (env.saveErr = none →
        ∀ (s' : server) (env' : Env) (r' : Request),
          r'.sessionCookie = r.sessionCookie → getBearerToken r'.authorization = "" →
          responseStatus (authenticate s' env' (logout s env st r).store r').trace ≠ some 200 ∧
          ∀ (canon : String → String) (key : String),
            responseHeader canon (authenticate s' env' (logout s env st r).store r').trace key
              = none)) := by
  have hrun := logout_valid_run s env st r session endpoint token hget hvalid hend htoken
  refine ⟨?_, ?_⟩
  · intro err herr
    rw [herr] at hrun
    rw [hrun]
    exact ⟨rfl, by simp⟩
  · rintro hnone ⟨u, hu⟩
    rw [hnone, hu] at hrun
    rw [hrun]
    refine ⟨rfl, rfl, ?_⟩
    intro hsave s' env' r' hcookie hbearer
    have hc : r'.sessionCookie = some session.id := by
      rw [hcookie]
      exact get_valid st env.storeGetErr r userSessionCookie session hget hvalid
    have hstore : saveTo st env (expire session) = st.delete session.id := by
      simp [saveTo, hsave, Store.save, expire]
    simp only [hstore]
    exact authenticate_after_delete s' env' st r' session.id hc hbearer

/-- Witness of C7: the logout of alice with a provider that revokes her
tokens; her cookie no longer validates afterwards. -/
theorem logout_expires_when_revoked_witness :
    responseStatus (authenticate exampleServer (exampleEnv [])
        (logout exampleServer (exampleEnv []) aliceStore logoutRequest).store
        cookieRequest).trace ≠ some 200 :=
  (((logout_expires_when_revoked exampleServer (exampleEnv []) aliceStore logoutRequest
      { aliceSession with isNew := false } "https://provider/revoke" exampleToken
      rfl rfl rfl (by decide)).2 rfl ⟨"alice@example.com", by decide⟩).2.2 rfl
      exampleServer (exampleEnv []) cookieRequest rfl (by decide)).1

/-- Counterexample to C7 as stated: when the provider answers the revocation
with 503, or the revocation fails with another error, logout answers 503, or
500, and saves nothing: the store still holds the session, and the next
authenticate call with the cookie answers 200 with the identity of alice. -/
theorem logout_keeps_session_when_revocation_fails :
    (logout exampleServer unavailableRevokeEnv aliceStore logoutRequest
        = ⟨[Event.storeGet "authservice_session", Event.revocationEndpoint,
            Event.revokeTokens "https://provider/revoke" exampleToken,
            Event.returnStatus 503
              "Failed to revoke access/refresh tokens, please try again"],
           false, aliceStore⟩ ∧
      authenticate exampleServer unavailableRevokeEnv
          (logout exampleServer unavailableRevokeEnv aliceStore logoutRequest).store
          cookieRequest
        = ⟨[Event.storeGet "authservice_session",
            Event.setHeader "kubeflow-userid" "accounts:alice@example.com",
            Event.setHeader "kubeflow-userid-token" "raw",
            Event.returnStatus 200 "OK"], false, aliceStore⟩) ∧
    (logout exampleServer brokenRevokeEnv aliceStore logoutRequest
        = ⟨[Event.storeGet "authservice_session", Event.revocationEndpoint,
            Event.revokeTokens "https://provider/revoke" exampleToken,
            Event.returnStatus 500
              "Failed to revoke access/refresh tokens, please try again"],
           false, aliceStore⟩ ∧
      responseStatus (authenticate exampleServer brokenRevokeEnv
          (logout exampleServer brokenRevokeEnv aliceStore logoutRequest).store
          cookieRequest).trace = some 200) := by
  decide

/-- C8: for a logout request with a valid session whose token revocation is
attempted and fails, the status answered is 503 exactly when the cause of the
failure is a provider response with status 503, and is 500 for every other
failure. -/
theorem logout_revocation_failure_status (s : server) (env : Env) (st : Store)
    (r : Request) (session : Session) (endpoint : String) (token : OAuth2Token)
    (err : RevokeError)
    (hget : st.get env.storeGetErr r userSessionCookie = Except.ok session)
    (hvalid : session.isNew = false)
    (hend : env.revocationEndpoint = Except.ok endpoint)
    (htoken : session.values.lookup userSessionOAuth2Tokens = some (Value.token token))
    (hrev : env.revokeTokens endpoint token s.clientID s.clientSecret = some err) :
    (responseStatus (logout s env st r).trace = some 503
      ↔ err = RevokeError.requestError 503) ∧
    (err ≠ RevokeError.requestError 503 →
      responseStatus (logout s env st r).trace = some 500) := by
  have hrun := logout_valid_run s env st r session endpoint token hget hvalid hend htoken
  rw [hrev] at hrun
  rw [hrun]
  simp only [responseStatus]
  cases err with
  | requestError code =>
    by_cases hcode : code = 503
    · simp [revokeStatus, hcode]
    · simp [revokeStatus, hcode]
  | other msg => simp [revokeStatus]

/-- Witness of C8: the logout of alice while the provider answers the
revocation with 503. -/
theorem logout_revocation_failure_status_witness :
    responseStatus (logout exampleServer unavailableRevokeEnv aliceStore
      logoutRequest).trace = some 503 :=
  (logout_revocation_failure_status exampleServer unavailableRevokeEnv aliceStore
    logoutRequest { aliceSession with isNew := false } "https://provider/revoke"
    exampleToken (RevokeError.requestError 503) rfl rfl rfl (by decide) rfl).1.mpr rfl


/-! ### logout without a session -/

theorem revokeStatus_ne_redirect (err : RevokeError) : revokeStatus err ≠ 303 := by
  cases err with
  | requestError code =>
    by_cases h : code = 503
    · simp [revokeStatus, h]
    · simp [revokeStatus, h]
  | other msg => simp [revokeStatus]

theorem logout_no_session_run (s : server) (env : Env) (st : Store) (r : Request)
    (h : (∃ e : String, st.get env.storeGetErr r userSessionCookie = Except.error e) ∨
      (∃ session : Session, st.get env.storeGetErr r userSessionCookie = Except.ok session ∧
        session.isNew = true)) :
    logout s env st r
      = ⟨[Event.storeGet userSessionCookie, Event.redirect "/" 303], false, st⟩ := by
  rcases h with ⟨e, he⟩ | ⟨session, hs, hnew⟩
  · unfold logout
    simp only [he]
  · unfold logout
    simp only [hs, hnew, if_true]

theorem logout_after_delete (s : server) (env : Env) (st : Store) (r : Request)
    (id : String) (hc : r.sessionCookie = some id) :
    logout s env (st.delete id) r
      = ⟨[Event.storeGet userSessionCookie, Event.redirect "/" 303], false,
          st.delete id⟩ := by
  apply logout_no_session_run
  simp only [Store.get, hc, find_delete]
  cases env.storeGetErr with
  | some e => exact Or.inl ⟨e, rfl⟩
  | none => exact Or.inr ⟨_, rfl, rfl⟩

theorem logout_redirect_run (s : server) (env : Env) (st : Store) (r : Request)
    (session : Session)
    (hget : st.get env.storeGetErr r userSessionCookie = Except.ok session)
    (hvalid : session.isNew = false)
    (hstatus : responseStatus (logout s env st r).trace = some 303) :
    ∃ t : List Event, logout s env st r
      = ⟨t ++ [Event.sessionSave (expire session), Event.redirect "/" 303], false,
          saveTo st env (expire session)⟩ := by
  unfold logout at hstatus ⊢
  simp only [hget, hvalid] at hstatus ⊢
  simp only [Bool.false_eq_true, if_false] at hstatus ⊢
  split
  · exact ⟨_, rfl⟩
  · rename_i endpoint hend
    simp only [hend] at hstatus
    split
    · rename_i token htoken
      simp only [htoken] at hstatus
      split
      · rename_i err herr
        simp only [herr] at hstatus
        simp [responseStatus, revokeStatus_ne_redirect] at hstatus
      · rename_i hnone
        simp only [hnone] at hstatus
        split
        · exact ⟨_, rfl⟩
        · rename_i hu
          exfalso
          revert hstatus
          split
          · rename_i u hu'
            exact absurd hu' (hu u)
          · simp [responseStatus]
    · rename_i htoken
      exfalso
      revert hstatus
      split
      · rename_i token htoken'
        exact absurd htoken' (htoken token)
      · simp [responseStatus]

/-- C11: a logout whose session lookup fails or finds a new (absent) session
answers with the redirect to `/` (303, no error status), attempts no
revocation and saves nothing; and after a logout of a valid session that
ended in the redirect and whose save succeeded, every further logout with the
same cookie is answered by the same redirect to `/`, leaving the store as it
is. -/
theorem logout_idempotent (s : server) (env : Env) (st : Store) (r : Request) :
    (((∃ e : String, st.get env.storeGetErr r userSessionCookie = Except.error e) ∨
        (∃ session : Session,
          st.get env.storeGetErr r userSessionCookie = Except.ok session ∧
          session.isNew = true)) →
      logout s env st r
        = ⟨[Event.storeGet userSessionCookie, Event.redirect "/" 303], false, st⟩ ∧
      responseStatus (logout s env st r).trace = some 303 ∧
      (∀ (endpoint : String) (token : OAuth2Token),
        Event.revokeTokens endpoint token ∉ (logout s env st r).trace) ∧
      (∀ sess : Session, Event.sessionSave sess ∉ (logout s env st r).trace)) ∧
    (∀ session : Session,
      st.get env.storeGetErr r userSessionCookie = Except.ok session →
      session.isNew = false →
      responseStatus (logout s env st r).trace = some 303 →
      env.saveErr = none →
      (logout s env st r).trace.getLast? = some (Event.redirect "/" 303) ∧
      ∀ (s' : server) (env' : Env) (r' : Request),
        r'.sessionCookie = r.sessionCookie →
        logout s' env' (logout s env st r).store r'
          = ⟨[Event.storeGet userSessionCookie, Event.redirect "/" 303], false,
              (logout s env st r).store⟩) := by
  refine ⟨?_, ?_⟩
  · intro h
    have hrun := logout_no_session_run s env st r h
    rw [hrun]
    refine ⟨rfl, rfl, ?_, ?_⟩
    · intro endpoint token
      simp
    · intro sess
      simp
  · intro session hget hvalid hstatus hsave
    obtain ⟨t, hrun⟩ := logout_redirect_run s env st r session hget hvalid hstatus
    have hstore : saveTo st env (expire session) = st.delete session.id := by
      simp [saveTo, hsave, Store.save, expire]
    rw [hrun]
    refine ⟨?_, ?_⟩
    · simp [List.getLast?_append]
    · intro s' env' r' hcookie
      have hc : r'.sessionCookie = some session.id := by
        rw [hcookie]
        exact get_valid st env.storeGetErr r userSessionCookie session hget hvalid
      simp only [hstore]
      exact logout_after_delete s' env' st r' session.id hc

/-- Witness of C11: alice logs out, her tokens are revoked and her session is
deleted; her second logout is answered by the redirect to `/`. -/
theorem logout_idempotent_witness :
    logout exampleServer (exampleEnv [])
        (logout exampleServer (exampleEnv []) aliceStore logoutRequest).store logoutRequest
      = ⟨[Event.storeGet userSessionCookie, Event.redirect "/" 303], false,
          (logout exampleServer (exampleEnv []) aliceStore logoutRequest).store⟩ :=
  ((logout_idempotent exampleServer (exampleEnv []) aliceStore logoutRequest).2
    { aliceSession with isNew := false } rfl rfl (by decide) rfl).2
    exampleServer (exampleEnv []) logoutRequest rfl

/-! ### getBearerToken -/

theorem trim_of_ends (l : List Char)
    (hf : ∀ c : Char, l.head? = some c → isSpace c = false)
    (hl : ∀ c : Char, l.getLast? = some c → isSpace c = false) :
    ((l.dropWhile isSpace).reverse.dropWhile isSpace).reverse = l := by
  cases l with
  | nil => rfl
  | cons a rest =>
    have ha : ¬ isSpace a = true := by
      simp [hf a rfl]
    rw [List.dropWhile_cons_of_neg ha]
    cases hrev : (a :: rest).reverse with
    | nil => simp at hrev
    | cons b tl =>
      have hb : ¬ isSpace b = true := by
        have : (a :: rest).getLast? = some b := by
          rw [← List.head?_reverse, hrev]
          rfl
        simp [hl b this]
      rw [List.dropWhile_cons_of_neg hb, ← hrev, List.reverse_reverse]

theorem trimSpace_bearer (t : String) (hne : t ≠ "")
    (hl : ∀ c : Char, t.data.getLast? = some c → isSpace c = false) :
    trimSpace ("Bearer " ++ t) = "Bearer " ++ t := by
  have hd : t.data ≠ [] := fun h => hne (String.ext h)
  unfold trimSpace
  apply String.ext
  show (((("Bearer " ++ t).data).dropWhile isSpace).reverse.dropWhile isSpace).reverse
    = ("Bearer " ++ t).data
  apply trim_of_ends
  · intro c hc
    rw [String.data_append] at hc
    have : c = 'B' := by
      simpa using hc.symm
    rw [this]
    decide
  · intro c hc
    rw [String.data_append, List.getLast?_append_of_ne_nil _ hd] at hc
    exact hl c hc

theorem trimPrefix_append (pfx t : String) : trimPrefix (pfx ++ t) pfx = t := by
  have hp : hasPrefix (pfx ++ t) pfx = true := (hasPrefix_iff _ _).mpr ⟨t, rfl⟩
  unfold trimPrefix
  rw [if_pos hp]
  apply String.ext
  simp

theorem trimSpace_of_spaces (v : String) (h : ∀ c ∈ v.data, isSpace c = true) :
    trimSpace v = "" := by
  unfold trimSpace
  apply String.ext
  have : v.data.dropWhile isSpace = [] := List.dropWhile_eq_nil_iff.mpr h
  simp [this]

theorem authenticate_session_path (s : server) (env : Env) (st : Store) (r : Request)
    (hb : getBearerToken r.authorization = "") :
    (authenticate s env st r).trace.head? = some (Event.storeGet userSessionCookie) ∧
    ∀ tok : String, Event.verify tok ∉ (authenticate s env st r).trace := by
  have hlen : (getBearerToken r.authorization).length = 0 := by
    rw [hb]; rfl
  simp only [authenticate, hlen, ne_eq, not_true_eq_false, if_false]
  split
  · simp
  · split
    · split
      · split
        · split <;> split <;> simp
        · split <;> simp
      · simp
    · split <;> simp

/-- C12: getBearerToken returns t for the header value `Bearer ` followed by a
non-empty token t without leading or trailing whitespace; it returns the
trimmed header value when that does not start with `Bearer `; it returns the
empty string for an empty or whitespace-only header value; and when it returns
the empty string authenticate does not take the bearer path: it verifies no
token and starts with the lookup of the session. -/
theorem getBearerToken_strips_bearer :
    (∀ t : String, t ≠ "" →
      (∀ c : Char, t.data.head? = some c → isSpace c = false) →
      (∀ c : Char, t.data.getLast? = some c → isSpace c = false) →
      getBearerToken ("Bearer " ++ t) = t) ∧
    (∀ v : String, (¬ ∃ rest : String, trimSpace v = "Bearer " ++ rest) →
      getBearerToken v = trimSpace v) ∧
    (∀ v : String, (∀ c ∈ v.data, isSpace c = true) → getBearerToken v = "") ∧
    (∀ (s : server) (env : Env) (st : Store) (r : Request),
      getBearerToken r.authorization = "" →
      (authenticate s env st r).trace.head? = some (Event.storeGet userSessionCookie) ∧
      ∀ tok : String, Event.verify tok ∉ (authenticate s env st r).trace) := by
  refine ⟨?_, ?_, ?_, ?_⟩
  · intro t hne _ hl
    have htrim := trimSpace_bearer t hne hl
    have hp : hasPrefix ("Bearer " ++ t) "Bearer " = true :=
      (hasPrefix_iff _ _).mpr ⟨t, rfl⟩
    unfold getBearerToken
    simp only [htrim, hp, if_true]
    exact trimPrefix_append "Bearer " t
  · intro v hv
    have hp : ¬ hasPrefix (trimSpace v) "Bearer " = true := by
      intro h
      exact hv ((hasPrefix_iff _ _).mp h)
    unfold getBearerToken
    simp only [hp, if_false]
    rfl
  · intro v hv
    have htrim := trimSpace_of_spaces v hv
    unfold getBearerToken
    simp only [htrim]
    decide
  · intro s env st r hb
    exact authenticate_session_path s env st r hb

/-- Witness of C12: the header value `Bearer tok`. -/
theorem getBearerToken_strips_bearer_witness :
    getBearerToken ("Bearer " ++ "tok") = "tok" :=
  getBearerToken_strips_bearer.1 "tok" (by decide)
    (by intro c hc; simp at hc; subst hc; decide)
    (by intro c hc; simp at hc; subst hc; decide)

/-! ### The web server -/

/-- C13: at the failing input, a GET of /site/landing, the router of the web
server has no matching route and answers 404, whatever the templates and the
assets: the landing page is registered at /site/homepage. The after-logout
page and the assets prefix are routed to their handlers. -/
theorem webRouter_landing_not_found (files : WebFiles) :
    (webRouter files landingRequest = WebAnswer.notFound ∧
      (webRouter files landingRequest).status = some 404) ∧
    webRouter files homepageRequest = siteHandler files tmplLanding ∧
    webRouter files afterLogoutRequest = siteHandler files tmplAfterLogout ∧
    webRouter files imageRequest
      = WebAnswer.asset "/themes/ekf/bg.svg" (files.fileServer "/themes/ekf/bg.svg") := by
  have h1 : ¬ (landingRequest.path = HomepagePath ∧ landingRequest.method = "GET") := by
    decide
  have h2 : ¬ (landingRequest.path = AfterLogoutPath ∧ landingRequest.method = "GET") := by
    decide
  have h3 : ¬ hasPrefix landingRequest.path AssetsPath = true := by decide
  have h4 : ¬ (landingRequest.path = HomepagePath ∨ landingRequest.path = AfterLogoutPath) := by
    decide
  have hrun : webRouter files landingRequest = WebAnswer.notFound := by
    simp only [webRouter, if_neg h1, if_neg h2, if_neg h3, if_neg h4]
  have g1 : homepageRequest.path = HomepagePath ∧ homepageRequest.method = "GET" := by
    decide
  have k1 : ¬ (afterLogoutRequest.path = HomepagePath ∧ afterLogoutRequest.method = "GET") := by
    decide
  have k2 : afterLogoutRequest.path = AfterLogoutPath ∧ afterLogoutRequest.method = "GET" := by
    decide
  have m1 : ¬ (imageRequest.path = HomepagePath ∧ imageRequest.method = "GET") := by
    decide
  have m2 : ¬ (imageRequest.path = AfterLogoutPath ∧ imageRequest.method = "GET") := by
    decide
  have m3 : hasPrefix imageRequest.path AssetsPath = true := by decide
  have m4 : trimPrefix imageRequest.path AssetsPath = "/themes/ekf/bg.svg" := by decide
  refine ⟨⟨hrun, ?_⟩, ?_, ?_, ?_⟩
  · rw [hrun]
    rfl
  · simp only [webRouter, if_pos g1]
  · simp only [webRouter, if_neg k1, if_pos k2]
  · simp only [webRouter, if_neg m1, if_neg m2, if_pos m3, m4]


end AuthService
